import Mathlib

/-!
Verification development for `generate_ellipsis_wave.py`, a script that
renders a looping three-dot "ellipsis" APNG animation.  The script is
embedded shallowly: times and opacities, floats in Python whose values
here are all exactly representable dyadic/decimal rationals, are modelled
as `ℚ`; Python `int(...)` truncation is `pyint`; the float `%` used on
nonnegative operands is `pymod`; the file-system side effects of
`generate_apng` are recorded as an ordered event trace.
-/

namespace EllipsisWave

/-- Python `%` on rationals: `a - b * floor (a / b)` (the sign convention
Python uses). -/
def pymod (a b : ℚ) : ℚ := a - b * (⌊a / b⌋ : ℤ)

/-- Python `int(...)`: truncation toward zero. -/
def pyint (q : ℚ) : ℤ := if q < 0 then -⌊-q⌋ else ⌊q⌋

/-! ### Animation parameters (module constants of the script) -/

/-- `DOT_SIZE = 30`, diameter of a dot in pixels. -/
def DOT_SIZE : ℤ := 30

/-- `DOT_SPACING = 26`. -/
def DOT_SPACING : ℤ := 26

/-- `FPS = 30`. -/
def FPS : ℕ := 30

/-- `CYCLE_DURATION = 1.5`. -/
def CYCLE_DURATION : ℚ := 3/2

/-- `FADE_START = [0.0, 0.25, 0.5]`, indexed by dot. -/
def FADE_START : Fin 3 → ℚ
  | 0 => 0
  | 1 => 1/4
  | 2 => 1/2

/-- `BRIGHTEN_START = [0.75, 1.0, 1.25]`, indexed by dot. -/
def BRIGHTEN_START : Fin 3 → ℚ
  | 0 => 3/4
  | 1 => 1
  | 2 => 5/4

/-- `TRANSITION_TIME = 0.1`. -/
def TRANSITION_TIME : ℚ := 1/10

/-- `NUM_DOTS = 3`. -/
def NUM_DOTS : ℕ := 3

/-- `TOTAL_WIDTH = DOT_SIZE * NUM_DOTS + DOT_SPACING * (NUM_DOTS - 1)`. -/
def TOTAL_WIDTH : ℤ := DOT_SIZE * NUM_DOTS + DOT_SPACING * (NUM_DOTS - 1)

/-- `PADDING = 2`. -/
def PADDING : ℤ := 2

/-- `WIDTH = TOTAL_WIDTH + PADDING * 2`. -/
def WIDTH : ℤ := TOTAL_WIDTH + PADDING * 2

/-- `HEIGHT = DOT_SIZE + PADDING * 2`. -/
def HEIGHT : ℤ := DOT_SIZE + PADDING * 2

/-- `TOTAL_FRAMES = int(CYCLE_DURATION * FPS)`. -/
def TOTAL_FRAMES : ℕ := (pyint (CYCLE_DURATION * (FPS : ℚ))).toNat

/-- `get_opacity_at_time(dot_index, current_time)`: the piecewise-linear
opacity waveform of the script, translated branch for branch. -/
def get_opacity_at_time (dot_index : Fin 3) (current_time : ℚ) : ℚ :=
  let fade_time := FADE_START dot_index
  let brighten_time := BRIGHTEN_START dot_index
  if current_time < fade_time then
    1
  else if current_time < fade_time + TRANSITION_TIME then
    1 - (1/2) * ((current_time - fade_time) / TRANSITION_TIME)
  else if current_time < brighten_time then
    1/2
  else if current_time < brighten_time + TRANSITION_TIME then
    1/2 + (1/2) * ((current_time - brighten_time) / TRANSITION_TIME)
  else
    1

/-! ### Frame rasterization -/

/-- One `draw.ellipse` call issued by `create_frame`: the bounding box
`[x0, y0, x1, y1]` and the fill `(0, 0, 0, alpha)`.  Only the alpha
component of the fill varies, so the RGB components are kept literally. -/
structure DrawCmd where
  x0 : ℤ
  y0 : ℤ
  x1 : ℤ
  y1 : ℤ
  red : ℤ
  green : ℤ
  blue : ℤ
  alpha : ℤ
  deriving DecidableEq, Repr, Inhabited

/-- `create_frame(frame_num)`: the ordered list of ellipse-draw commands
the script issues on a transparent `WIDTH × HEIGHT` canvas.  The sampled
time is `(frame_num / FPS) % CYCLE_DURATION`. -/
def create_frame (frame_num : ℕ) : List DrawCmd :=
  let current_time := pymod ((frame_num : ℚ) / (FPS : ℚ)) CYCLE_DURATION
  (List.finRange NUM_DOTS).map (fun i =>
    let x : ℤ := PADDING + (i.val : ℤ) * (DOT_SIZE + DOT_SPACING)
    let y : ℤ := PADDING
    let opacity := get_opacity_at_time i current_time
    let alpha : ℤ := pyint (opacity * 255)
    { x0 := x, y0 := y, x1 := x + DOT_SIZE, y1 := y + DOT_SIZE,
      red := 0, green := 0, blue := 0, alpha := alpha })

/-! ### `generate_apng` and its file-system effects -/

/-- A file-system event performed by `generate_apng`, in program order:
writing a temporary frame PNG, saving the assembled APNG to the output
path, or removing a file. -/
inductive FsEvent where
  | write (path : String)
  | save (path : String)
  | remove (path : String)
  deriving DecidableEq, Repr

/-- Zero-pad a natural number to at least four digits, as Python's
`{i:04d}` format does for nonnegative `i`. -/
def pad4 (i : ℕ) : String :=
  let s := toString i
  if s.length < 4 then String.mk (List.replicate (4 - s.length) '0') ++ s else s

/-- The temporary frame path `f'tmp\\frame_{i:04d}.png'`. -/
def temp_path (i : ℕ) : String := "tmp\\frame_" ++ pad4 i ++ ".png"

/-- `frame_duration = int(1000 / FPS)`, the per-frame delay in ms. -/
def frame_duration : ℤ := pyint ((1000 : ℚ) / (FPS : ℚ))

/-- The observable result of one call of `generate_apng(output_path)`:
the frame/delay sequence appended to the APNG container, the path the
container is saved to, and the ordered file-system event trace. -/
structure ApngRun where
  frames : List (List DrawCmd × ℤ)
  savedPath : String
  events : List FsEvent
  deriving Repr

/-- `generate_apng(output_path)`: for `i` in `range(TOTAL_FRAMES)` it
renders `create_frame(i)` and writes it to `temp_path i`; it then appends
each temporary file to the APNG with delay `frame_duration`, saves the
APNG to `output_path`, and finally removes every temporary file in the
same order. -/
def generate_apng (output_path : String) : ApngRun :=
  let frame_files := (List.range TOTAL_FRAMES).map temp_path
  { frames := (List.range TOTAL_FRAMES).map (fun i => (create_frame i, frame_duration)),
    savedPath := output_path,
    events := (List.range TOTAL_FRAMES).map (fun i => FsEvent.write (temp_path i))
      ++ [FsEvent.save output_path]
      ++ frame_files.map FsEvent.remove }

/-- The `__main__` block: the output file is `sys.argv[1]` when
`len(sys.argv) > 1`, else `'ellipsis_animation.png'`; `generate_apng`
is called on it. -/
def py_main (argv : List String) : ApngRun :=
  let output_file := "ellipsis_animation.png"
  let output_file := if argv.length > 1 then argv.getD 1 output_file else output_file
  generate_apng output_file

/-! ### Helper lemmas -/

lemma TOTAL_FRAMES_eq : TOTAL_FRAMES = 45 := by
  norm_num [TOTAL_FRAMES, pyint, CYCLE_DURATION, FPS]
  rfl

lemma frame_duration_eq : frame_duration = 33 := by
  norm_num [frame_duration, pyint, FPS]

lemma pyint_of_nonneg (q : ℚ) (h : 0 ≤ q) : pyint q = ⌊q⌋ := by
  unfold pyint
  rw [if_neg (not_lt.2 h)]

lemma pymod_add_right (x b : ℚ) (hb : b ≠ 0) : pymod (x + b) b = pymod x b := by
  unfold pymod
  rw [show (x + b) / b = x / b + 1 by field_simp, Int.floor_add_one]
  push_cast
  ring

/-! ### The reference waveform of the specification -/

/-- The fade start times `[0.0, 0.25, 0.5]` as the specification states
them for the reference waveform. -/
def spec_fade_start : Fin 3 → ℚ
  | 0 => 0
  | 1 => 1/4
  | 2 => 1/2

/-- The brighten start times `[0.75, 1.0, 1.25]` as the specification
states them for the reference waveform. -/
def spec_brighten_start : Fin 3 → ℚ
  | 0 => 3/4
  | 1 => 1
  | 2 => 5/4

/-- The piecewise-linear reference waveform written from the
specification's own wording: `1.0` before the fade start, the linear
interpolation `1.0 - 0.5*((t - fade)/0.1)` during the fade, `0.5` until
the brighten start, `0.5 + 0.5*((t - brighten)/0.1)` during the
brighten, and `1.0` afterwards. -/
def spec_waveform (i : Fin 3) (t : ℚ) : ℚ :=
  if t < spec_fade_start i then 1
  else if t < spec_fade_start i + 1/10 then
    1 - (1/2) * ((t - spec_fade_start i) / (1/10))
  else if t < spec_brighten_start i then 1/2
  else if t < spec_brighten_start i + 1/10 then
    1/2 + (1/2) * ((t - spec_brighten_start i) / (1/10))
  else 1

/-- C1: for every dot index and every time `0 ≤ t < 1.5`,
`get_opacity_at_time` agrees with the piecewise-linear reference
waveform of the specification, with `FADE_START = [0.0, 0.25, 0.5]` and
`BRIGHTEN_START = [0.75, 1.0, 1.25]`. -/
theorem get_opacity_matches_spec_waveform (i : Fin 3) (t : ℚ)
    (h0 : 0 ≤ t) (h1 : t < 3/2) :
    get_opacity_at_time i t = spec_waveform i t := by
  fin_cases i <;>
    simp only [get_opacity_at_time, spec_waveform, FADE_START, BRIGHTEN_START,
      TRANSITION_TIME, spec_fade_start, spec_brighten_start]

/-- Witness for C1 at dot 0, time 1/2. -/
theorem get_opacity_matches_spec_waveform_witness :
    get_opacity_at_time 0 (1/2) = spec_waveform 0 (1/2) :=
  get_opacity_matches_spec_waveform 0 (1/2) (by norm_num) (by norm_num)

/-- C9: each dot's opacity waveform is the first dot's waveform delayed
by `0.25` seconds per index, and `BRIGHTEN_START[i] - FADE_START[i] =
0.75` for every dot. -/
theorem wave_time_shift (i : Fin 3) (t : ℚ) :
    get_opacity_at_time i t = get_opacity_at_time 0 (t - 1/4 * (i.val : ℚ)) ∧
    BRIGHTEN_START i - FADE_START i = 3/4 := by
  fin_cases i <;>
    refine ⟨?_, by norm_num [FADE_START, BRIGHTEN_START]⟩ <;>
    simp only [get_opacity_at_time, FADE_START, BRIGHTEN_START, TRANSITION_TIME] <;>
    norm_num <;>
    split_ifs <;>
    first
      | rfl
      | linarith

/-- C2: the time sampled by `create_frame` is `(n / FPS) % CYCLE_DURATION`,
the animation loops with period `TOTAL_FRAMES = 45` frames, and at the
loop boundary `t = 0` every dot has opacity `1.0`, the same opacity every
dot has at the end of the cycle `t = CYCLE_DURATION`. -/
theorem create_frame_loops (n : ℕ) :
    TOTAL_FRAMES = 45 ∧
    create_frame n = ((List.finRange NUM_DOTS).map (fun i =>
      let x : ℤ := PADDING + (i.val : ℤ) * (DOT_SIZE + DOT_SPACING)
      { x0 := x, y0 := PADDING, x1 := x + DOT_SIZE, y1 := PADDING + DOT_SIZE,
        red := 0, green := 0, blue := 0,
        alpha := pyint (get_opacity_at_time i
          (pymod ((n : ℚ) / (FPS : ℚ)) CYCLE_DURATION) * 255) : DrawCmd })) ∧
    create_frame (n + TOTAL_FRAMES) = create_frame n ∧
    (∀ i : Fin 3, get_opacity_at_time i 0 = 1) ∧
    (∀ i : Fin 3, get_opacity_at_time i CYCLE_DURATION = 1) := by
  refine ⟨TOTAL_FRAMES_eq, rfl, ?_, ?_, ?_⟩
  · have harg : ((n + TOTAL_FRAMES : ℕ) : ℚ) / (FPS : ℚ)
        = (n : ℚ) / (FPS : ℚ) + CYCLE_DURATION := by
      rw [TOTAL_FRAMES_eq]
      push_cast [FPS, CYCLE_DURATION]
      ring
    simp only [create_frame, harg,
      pymod_add_right _ CYCLE_DURATION (by norm_num [CYCLE_DURATION])]
  · intro i
    fin_cases i <;>
      norm_num [get_opacity_at_time, FADE_START, BRIGHTEN_START, TRANSITION_TIME]
  · intro i
    fin_cases i <;>
      norm_num [get_opacity_at_time, FADE_START, BRIGHTEN_START, TRANSITION_TIME,
        CYCLE_DURATION]

/-- C3: every frame consists of exactly three dots at x-positions
`PADDING + i*(DOT_SIZE + DOT_SPACING)`, the fade and brighten start
times are strictly increasing in the dot index, and every fade start
precedes every brighten start. -/
theorem frame_three_dots_sequential (n : ℕ) :
    (create_frame n).length = 3 ∧
    (∀ i : Fin 3, ((create_frame n).getD i.val default).x0
      = PADDING + (i.val : ℤ) * (DOT_SIZE + DOT_SPACING)) ∧
    FADE_START 0 < FADE_START 1 ∧ FADE_START 1 < FADE_START 2 ∧
    BRIGHTEN_START 0 < BRIGHTEN_START 1 ∧ BRIGHTEN_START 1 < BRIGHTEN_START 2 ∧
    (∀ i j : Fin 3, FADE_START i < BRIGHTEN_START j) := by
  have hfin : List.finRange 3 = [0, 1, 2] := rfl
  refine ⟨?_, ?_, ?_, ?_, ?_, ?_, ?_⟩
  · simp [create_frame, NUM_DOTS]
  · intro i
    fin_cases i <;>
      simp [create_frame, NUM_DOTS, hfin, List.getD]
  · norm_num [FADE_START]
  · norm_num [FADE_START]
  · norm_num [BRIGHTEN_START]
  · norm_num [BRIGHTEN_START]
  · intro i j
    fin_cases i <;> fin_cases j <;> norm_num [FADE_START, BRIGHTEN_START]

/-- C8: for every dot and every nonnegative time the opacity lies in
`[0.5, 1.0]`, hence the alpha value `int(opacity * 255)` lies in
`[127, 255]`. -/
theorem opacity_range (i : Fin 3) (t : ℚ) (ht : 0 ≤ t) :
    1/2 ≤ get_opacity_at_time i t ∧ get_opacity_at_time i t ≤ 1 ∧
    127 ≤ pyint (get_opacity_at_time i t * 255) ∧
    pyint (get_opacity_at_time i t * 255) ≤ 255 := by
  obtain ⟨hlo, hhi⟩ : 1/2 ≤ get_opacity_at_time i t ∧ get_opacity_at_time i t ≤ 1 := by
    fin_cases i <;>
      (simp only [get_opacity_at_time, FADE_START, BRIGHTEN_START, TRANSITION_TIME]
       norm_num
       split_ifs <;> constructor <;> linarith)
  have hq0 : (0 : ℚ) ≤ get_opacity_at_time i t * 255 := by linarith
  rw [pyint_of_nonneg _ hq0]
  refine ⟨hlo, hhi, ?_, ?_⟩
  · rw [Int.le_floor]
    push_cast
    linarith
  · have h255 : get_opacity_at_time i t * 255 ≤ 255 := by linarith
    calc ⌊get_opacity_at_time i t * 255⌋ ≤ ⌊(255 : ℚ)⌋ := Int.floor_le_floor h255
      _ = 255 := by norm_num

/-- Witness for C8 at dot 1, time 0.3 (opacity 3/4, alpha 191). -/
theorem opacity_range_witness :
    1/2 ≤ get_opacity_at_time 1 (3/10) ∧ get_opacity_at_time 1 (3/10) ≤ 1 ∧
    127 ≤ pyint (get_opacity_at_time 1 (3/10) * 255) ∧
    pyint (get_opacity_at_time 1 (3/10) * 255) ≤ 255 :=
  opacity_range 1 (3/10) (by norm_num)

/-- C10: every dot's ellipse bounding box lies entirely inside the
`WIDTH × HEIGHT` canvas, with `WIDTH = 146` and `HEIGHT = 34`. -/
theorem dots_inside_canvas (n : ℕ) :
    WIDTH = 146 ∧ HEIGHT = 34 ∧
    ∀ d ∈ create_frame n,
      0 ≤ d.x0 ∧ d.x1 ≤ WIDTH ∧ 0 ≤ d.y0 ∧ d.y1 ≤ HEIGHT := by
  have hfin : List.finRange 3 = [0, 1, 2] := rfl
  refine ⟨by norm_num [WIDTH, TOTAL_WIDTH, DOT_SIZE, DOT_SPACING, NUM_DOTS, PADDING],
    by norm_num [HEIGHT, DOT_SIZE, PADDING], ?_⟩
  intro d hd
  simp only [create_frame, NUM_DOTS, hfin, List.map_cons, List.map_nil,
    List.mem_cons, List.mem_singleton, List.not_mem_nil, or_false] at hd
  rcases hd with h | h | h <;> subst h <;>
    norm_num [WIDTH, HEIGHT, TOTAL_WIDTH, DOT_SIZE, DOT_SPACING, NUM_DOTS, PADDING]

/-- Witness for C10's per-dot bound at frame 0 via the first dot. -/
theorem dots_inside_canvas_witness :
    0 ≤ (create_frame 0).headI.x0 ∧ (create_frame 0).headI.x1 ≤ WIDTH ∧
    0 ≤ (create_frame 0).headI.y0 ∧ (create_frame 0).headI.y1 ≤ HEIGHT :=
  (dots_inside_canvas 0).2.2 (create_frame 0).headI (by
    simp [create_frame, NUM_DOTS, show List.finRange 3 = [0, 1, 2] from rfl,
      List.headI])

/-- C4: `generate_apng` rasterizes exactly `TOTAL_FRAMES = 45` frames in
increasing frame-number order `0..44` and appends each with the same
delay `frame_duration = int(1000 / FPS) = 33` ms. -/
theorem generate_apng_frames_spec (out : String) :
    TOTAL_FRAMES = 45 ∧
    frame_duration = 33 ∧
    (generate_apng out).frames
      = (List.range TOTAL_FRAMES).map (fun i => (create_frame i, frame_duration)) ∧
    (generate_apng out).frames.length = 45 ∧
    (∀ k, k < 45 → (generate_apng out).frames[k]? = some (create_frame k, 33)) := by
  refine ⟨TOTAL_FRAMES_eq, frame_duration_eq, rfl, ?_, ?_⟩
  · simp [generate_apng, TOTAL_FRAMES_eq]
  · intro k hk
    simp [generate_apng, TOTAL_FRAMES_eq, List.getElem?_range hk, frame_duration_eq]

/-- Witness for C4 at frame 44 of a concrete run. -/
theorem generate_apng_frames_spec_witness :
    (generate_apng "ellipsis_animation.png").frames[44]?
      = some (create_frame 44, 33) :=
  (generate_apng_frames_spec "ellipsis_animation.png").2.2.2.2 44 (by norm_num)

/-- C5: the generated frame sequence is deterministic and independent of
the output filename: any two runs of `generate_apng` produce the same
frames, equal to the fixed-parameter sequence
`(create_frame i, frame_duration)` for `i` in `range(TOTAL_FRAMES)`. -/
theorem generation_deterministic :
    (∀ p₁ p₂ : String, (generate_apng p₁).frames = (generate_apng p₂).frames) ∧
    (∀ p : String, (generate_apng p).frames
      = (List.range TOTAL_FRAMES).map (fun i => (create_frame i, frame_duration))) :=
  ⟨fun _ _ => rfl, fun _ => rfl⟩

/-- C6: with at least one command-line argument the animation is saved to
the first argument; otherwise to `'ellipsis_animation.png'`. -/
theorem output_filename_from_argv :
    (∀ prog arg rest, (py_main (prog :: arg :: rest)).savedPath = arg) ∧
    (∀ argv : List String, argv.length ≤ 1 →
      (py_main argv).savedPath = "ellipsis_animation.png") := by
  constructor
  · intro prog arg rest
    simp [py_main, generate_apng]
  · intro argv h
    match argv with
    | [] => rfl
    | [a] => rfl
    | a :: b :: t => simp at h

/-- Witness for C6 on a two-element and a one-element argv. -/
theorem output_filename_from_argv_witness :
    (py_main ["generate_ellipsis_wave.py", "custom.png"]).savedPath = "custom.png" ∧
    (py_main ["generate_ellipsis_wave.py"]).savedPath = "ellipsis_animation.png" :=
  ⟨output_filename_from_argv.1 "generate_ellipsis_wave.py" "custom.png" [],
   output_filename_from_argv.2 ["generate_ellipsis_wave.py"] (by simp)⟩

/-- C7: the event trace of `generate_apng` splits around the save of the
output file: all `TOTAL_FRAMES` temporary frame writes precede the save,
no removal precedes the save, every temporary frame file is removed
after the save, and every written path is eventually removed. -/
theorem temp_files_cleaned (out : String) :
    ∃ pre post,
      (generate_apng out).events = pre ++ FsEvent.save out :: post ∧
      (∀ i, i < TOTAL_FRAMES → FsEvent.write (temp_path i) ∈ pre) ∧
      (∀ i, i < TOTAL_FRAMES → FsEvent.remove (temp_path i) ∈ post) ∧
      (∀ p, FsEvent.remove p ∉ pre) ∧
      (∀ p, FsEvent.write p ∈ (generate_apng out).events →
        FsEvent.remove p ∈ (generate_apng out).events) := by
  refine ⟨(List.range TOTAL_FRAMES).map (fun i => FsEvent.write (temp_path i)),
    ((List.range TOTAL_FRAMES).map temp_path).map FsEvent.remove,
    ?_, ?_, ?_, ?_, ?_⟩
  · simp [generate_apng]
  · intro i hi
    simp only [List.mem_map, List.mem_range]
    exact ⟨i, hi, rfl⟩
  · intro i hi
    simp only [List.map_map, List.mem_map, List.mem_range, Function.comp]
    exact ⟨i, hi, rfl⟩
  · intro p hp
    simp only [List.mem_map, List.mem_range] at hp
    obtain ⟨i, -, hbad⟩ := hp
    exact FsEvent.noConfusion hbad
  · intro p hp
    have hev : (generate_apng out).events
        = ((List.range TOTAL_FRAMES).map (fun i => FsEvent.write (temp_path i))
            ++ [FsEvent.save out])
          ++ ((List.range TOTAL_FRAMES).map temp_path).map FsEvent.remove := rfl
    rw [hev] at hp ⊢
    rcases List.mem_append.1 hp with hleft | hrem
    · rcases List.mem_append.1 hleft with hw | hs
      · obtain ⟨i, hi, hwi⟩ := List.mem_map.1 hw
        obtain rfl : temp_path i = p := FsEvent.write.inj hwi
        exact List.mem_append_right _
          (List.mem_map.2 ⟨temp_path i, List.mem_map.2 ⟨i, hi, rfl⟩, rfl⟩)
      · exact absurd (List.mem_singleton.1 hs) (by intro h; exact FsEvent.noConfusion h)
    · obtain ⟨q, -, hqe⟩ := List.mem_map.1 hrem
      exact FsEvent.noConfusion hqe

/-- Witness for C7: in a concrete run, the first temporary frame file is
removed after the save of the output file. -/
theorem temp_files_cleaned_witness :
    FsEvent.remove (temp_path 0) ∈ (generate_apng "ellipsis_animation.png").events := by
  obtain ⟨pre, post, hsplit, -, hpost, -, -⟩ :=
    temp_files_cleaned "ellipsis_animation.png"
  rw [hsplit]
  exact List.mem_append_right _
    (List.mem_cons_of_mem _ (hpost 0 (by rw [TOTAL_FRAMES_eq]; norm_num)))

end EllipsisWave
